import Mathlib

/-!
Shallow embedding of the Flask chatbot service in src/api.py.

External effects (the OpenAI client constructors, the Weaviate connection,
the vector-store wrapper, pymupdf, the token splitter, index construction
and the query engine) are modelled as an environment `Env` of outcomes:
each field records whether the corresponding call raises (as
`Except.error` carrying the exception text) or succeeds with a value.
Python exceptions propagating out of a handler are modelled explicitly as
an `escaped` outcome; Flask would convert such an exception into a 500
response, never a 200.
-/

set_option autoImplicit false

namespace Api

/-- Behaviour of a pymupdf document: whether `pymupdf.open` raises, and the
outcome of `page.get_text()` for each page, in order. -/
structure PdfFile where
  open_result : Except String Unit
  pages : List (Except String String)

/-- Outcomes of the external calls made by the service.  `Except.error e`
means the call raises an exception whose text is `e`. -/
structure Env where
  llm_ctor : Except String Unit
  embed_ctor : Except String Unit
  connect_wcs : Except String Unit
  vector_store_ctor : Except String Unit
  pdf : PdfFile
  split_text : String → Except String (List String)
  build_index : List String → Except String Unit
  engine_query : String → Except String String

/-- The `Chatbot` object of api.py; `none` is Python `None`.  Opaque
resources (llm, embeddings, client, vector store, index) are recorded only
as present (`some ()`) or absent (`none`). -/
structure Chatbot where
  filename : Option String
  llm : Option Unit
  embeddings : Option Unit
  client : Option Unit
  vector_store : Option Unit
  index : Option Unit
  summary : Option String
deriving DecidableEq

/-- Chatbot.__init__: every attribute starts as None. -/
def Chatbot.new : Chatbot :=
  ⟨none, none, none, none, none, none, none⟩

/-- The page loop of `_extract_text_from_pdf`: concatenates page texts,
propagating the first exception. -/
def read_pages : List (Except String String) → String → Except String String
  | [], acc => Except.ok acc
  | Except.ok t :: rest, acc => read_pages rest (acc ++ t)
  | Except.error e :: _, _ => Except.error e

/-- Chatbot._extract_text_from_pdf.  Returns the extracted text together
with a flag telling whether the file handle is still open when the method
returns (the source only calls `document.close()` on the success path). -/
def extract_text_from_pdf (f : PdfFile) : String × Bool :=
  match f.open_result with
  | Except.error _ => ("", false)
  | Except.ok _ =>
    match read_pages f.pages "" with
    | Except.ok t => (t, false)
    | Except.error _ => ("", true)

/-- Chatbot._process_document: the whole body is inside try/except; any
exception is caught and None is returned.  Extraction itself never raises
(it catches internally), so only chunking and index construction can fail
here. -/
def process_document (env : Env) : Option Unit :=
  match env.split_text (extract_text_from_pdf env.pdf).1 with
  | Except.error _ => none
  | Except.ok chunks =>
    match env.build_index chunks with
    | Except.error _ => none
    | Except.ok _ => some ()

/-- The fixed message `ask_query` returns when `self.index is None`. -/
def no_index_message : String :=
  "Sorry, the document hasn\x27t been processed correctly. Unable to answer queries."

/-- The fixed summary `get_initial_summary` returns when `self.index is None`. -/
def no_summary_message : String :=
  "Failed to process document. No summary available."

/-- Chatbot.ask_query: fixed message when the index is None, otherwise the
query engine is consulted and any exception is caught and rendered as
an error-embedding string. -/
def ask_query (env : Env) (cb : Chatbot) (q : String) : String :=
  match cb.index with
  | none => no_index_message
  | some _ =>
    match env.engine_query q with
    | Except.ok r => r
    | Except.error e => "Error processing query: " ++ e

/-- Chatbot.get_initial_summary. -/
def get_initial_summary (env : Env) (cb : Chatbot) : String :=
  match cb.index with
  | none => no_summary_message
  | some _ => ask_query env cb "Please provide a brief summary of the document."

/-- Chatbot._init_with_file: assigns the attributes one by one; the
constructor calls and the Weaviate connection are NOT inside any
try/except, so an exception there aborts the method, leaving the object
partially initialised.  Returns the object state together with the escaped
exception, if any. -/
def init_with_file (env : Env) (cb : Chatbot) (fname : String) :
    Chatbot × Option String :=
  let cb1 := { cb with filename := some fname }
  match env.llm_ctor with
  | Except.error e => (cb1, some e)
  | Except.ok _ =>
    let cb2 := { cb1 with llm := some () }
    match env.embed_ctor with
    | Except.error e => (cb2, some e)
    | Except.ok _ =>
      let cb3 := { cb2 with embeddings := some () }
      match env.connect_wcs with
      | Except.error e => (cb3, some e)
      | Except.ok _ =>
        let cb4 := { cb3 with client := some () }
        match env.vector_store_ctor with
        | Except.error e => (cb4, some e)
        | Except.ok _ =>
          let cb5 := { cb4 with vector_store := some () }
          let cb6 := { cb5 with index := process_document env }
          ({ cb6 with summary := some (get_initial_summary env cb6) }, none)

/-- Python filename.rsplit at the dot, keeping component 1: the characters
after the last occurrence of the dot (meaningful when a dot occurs). -/
def after_last_dot (l : List Char) : List Char :=
  (l.reverse.takeWhile (fun c => c != '.')).reverse

/-- allowed_file on the character list of the filename: the dot occurs in
the filename, and the lowercased characters after its last occurrence
(rsplit at the dot, component 1, lowercased) are in ALLOWED_EXTENSIONS,
the singleton set holding pdf. -/
def allowed_file_chars (l : List Char) : Bool :=
  l.contains '.' && ((after_last_dot l).map Char.toLower == ['p', 'd', 'f'])

/-- allowed_file of api.py. -/
def allowed_file (s : String) : Bool :=
  allowed_file_chars s.data

/-- An upload request: `none` models the file key being absent from
request.files, otherwise the filename of the file part. -/
structure UploadRequest where
  file : Option String

/-- Outcome of the upload handler: `ok s` is the 200 JSON response whose
summary field is `s`; `client_error` is a 400 JSON error; `escaped e` is an
exception that left the handler (Flask turns it into a 500). -/
inductive UploadOutcome where
  | ok (summary : Option String)
  | client_error (msg : String)
  | escaped (e : String)
deriving DecidableEq

/-- upload_file of api.py.  `cb` is the global `chatbot` before the
request; the first component of the result is the global after it.  The
global is reassigned to the fresh object before `_init_with_file`
runs, so it keeps the partially initialised object when an exception
escapes.  (`secure_filename` and the uploads/ path only affect the stored
path string, which no observable behaviour depends on, so the filename is
carried through unchanged.) -/
def upload_file (env : Env) (cb : Option Chatbot) (req : UploadRequest) :
    Option Chatbot × UploadOutcome :=
  match req.file with
  | none => (cb, UploadOutcome.client_error "No file part")
  | some fname =>
    if fname = "" then (cb, UploadOutcome.client_error "No selected file")
    else if allowed_file fname then
      let r := init_with_file env Chatbot.new fname
      match r.2 with
      | some e => (some r.1, UploadOutcome.escaped e)
      | none => (some r.1, UploadOutcome.ok r.1.summary)
    else (cb, UploadOutcome.client_error "Invalid file type")

/-- Outcome of the chat handler: `ok r` is the 200 JSON response with
response field `r`; `client_error` is a 400 JSON error. -/
inductive ChatOutcome where
  | ok (response : String)
  | client_error (msg : String)
deriving DecidableEq

/-- Python dict lookup on a JSON object modelled as an association list
(string values suffice for the behaviours claimed). -/
def lookup_field : List (String × String) → String → Option String
  | [], _ => none
  | (k, v) :: rest, key => if k = key then some v else lookup_field rest key

/-- chat of api.py.  `data` models `request.json`: `none` when the body is
JSON null, otherwise the object fields.  `not data` is true for None and
for the empty dict. -/
def chat (env : Env) (cb : Option Chatbot)
    (data : Option (List (String × String))) : ChatOutcome :=
  match cb with
  | none => ChatOutcome.client_error "Please upload a document first"
  | some c =>
    match data with
    | none => ChatOutcome.client_error "No message provided"
    | some [] => ChatOutcome.client_error "No message provided"
    | some fields =>
      match lookup_field fields "message" with
      | none => ChatOutcome.client_error "No message provided"
      | some q => ChatOutcome.ok (ask_query env c q)

/-- status of api.py: the (initialized, summary) pair of the JSON body. -/
def status (cb : Option Chatbot) : Bool × Option String :=
  (cb.isSome, match cb with | none => none | some c => c.summary)

/-! Concrete environments used to exercise the model. -/

/-- Environment in which `weaviate.connect_to_wcs` raises (the cluster is
unreachable) and every other external call would succeed. -/
def env_conn_fail : Env :=
  { llm_ctor := Except.ok ()
    embed_ctor := Except.ok ()
    connect_wcs := Except.error "weaviate cluster unreachable"
    vector_store_ctor := Except.ok ()
    pdf := { open_result := Except.ok (), pages := [Except.ok "some text"] }
    split_text := fun t => Except.ok [t]
    build_index := fun _ => Except.ok ()
    engine_query := fun _ => Except.ok "an answer" }

/-- Environment in which every external call succeeds except index
construction, which raises. -/
def env_index_fail : Env :=
  { llm_ctor := Except.ok ()
    embed_ctor := Except.ok ()
    connect_wcs := Except.ok ()
    vector_store_ctor := Except.ok ()
    pdf := { open_result := Except.ok (), pages := [Except.ok "some text"] }
    split_text := fun t => Except.ok [t]
    build_index := fun _ => Except.error "index construction failed"
    engine_query := fun _ => Except.ok "an answer" }

/-- Environment in which ingestion succeeds but the query engine raises. -/
def env_query_fail : Env :=
  { llm_ctor := Except.ok ()
    embed_ctor := Except.ok ()
    connect_wcs := Except.ok ()
    vector_store_ctor := Except.ok ()
    pdf := { open_result := Except.ok (), pages := [Except.ok "some text"] }
    split_text := fun t => Except.ok [t]
    build_index := fun _ => Except.ok ()
    engine_query := fun _ => Except.error "rate limit exceeded" }

/-- The chatbot object left behind when `_init_with_file` aborts at
the Weaviate connection: attributes up to `embeddings` assigned, the rest
still None. -/
def aborted_cb : Chatbot :=
  { filename := some "doc.pdf"
    llm := some ()
    embeddings := some ()
    client := none
    vector_store := none
    index := none
    summary := none }

/-- A fully initialised chatbot whose document processing failed: index is
None and the summary is the fixed failure string. -/
def failed_cb : Chatbot :=
  { filename := some "doc.pdf"
    llm := some ()
    embeddings := some ()
    client := some ()
    vector_store := some ()
    index := none
    summary := some no_summary_message }

/-- A fully initialised chatbot whose ingestion succeeded. -/
def ok_cb : Chatbot :=
  { filename := some "doc.pdf"
    llm := some ()
    embeddings := some ()
    client := some ()
    vector_store := some ()
    index := some ()
    summary := some "an answer" }

/-! Helper lemmas about the pipeline. -/

/-- ask_query reads the chatbot only through its index. -/
theorem ask_query_congr (env : Env) (a b : Chatbot) (h : a.index = b.index)
    (q : String) : ask_query env a q = ask_query env b q := by
  unfold ask_query
  rw [h]

/-- get_initial_summary reads the chatbot only through its index. -/
theorem get_initial_summary_congr (env : Env) (a b : Chatbot)
    (h : a.index = b.index) :
    get_initial_summary env a = get_initial_summary env b := by
  unfold get_initial_summary
  rw [h, ask_query_congr env a b h]

/-- Case analysis of `_init_with_file`: either it runs to completion
(no exception escapes, the index is the result of `_process_document` and
the summary is the initial summary of the final state), or it aborts with
an escaped exception before touching index and summary. -/
theorem init_cases (env : Env) (cb : Chatbot) (fname : String) :
    ((init_with_file env cb fname).2 = none ∧
      (init_with_file env cb fname).1.index = process_document env ∧
      (init_with_file env cb fname).1.summary =
        some (get_initial_summary env (init_with_file env cb fname).1)) ∨
    ((init_with_file env cb fname).2 ≠ none ∧
      (init_with_file env cb fname).1.index = cb.index ∧
      (init_with_file env cb fname).1.summary = cb.summary) := by
  unfold init_with_file
  cases hl : env.llm_ctor with
  | error e => exact Or.inr ⟨by simp, rfl, rfl⟩
  | ok u =>
    cases he : env.embed_ctor with
    | error e => exact Or.inr ⟨by simp, rfl, rfl⟩
    | ok u =>
      cases hc : env.connect_wcs with
      | error e => exact Or.inr ⟨by simp, rfl, rfl⟩
      | ok u =>
        cases hv : env.vector_store_ctor with
        | error e => exact Or.inr ⟨by simp, rfl, rfl⟩
        | ok u =>
          refine Or.inl ⟨rfl, rfl, ?_⟩
          exact congrArg some (get_initial_summary_congr env _ _ rfl).symm

/-- When validation passes, upload_file reassigns the global to the object
produced by `_init_with_file` and reports either the escaped
exception or a 200 response carrying the object summary. -/
theorem upload_valid_eq (env : Env) (cb : Option Chatbot) (fname : String)
    (hf : fname ≠ "") (ha : allowed_file fname = true) :
    upload_file env cb { file := some fname } =
      (some (init_with_file env Chatbot.new fname).1,
        match (init_with_file env Chatbot.new fname).2 with
        | some e => UploadOutcome.escaped e
        | none =>
          UploadOutcome.ok (init_with_file env Chatbot.new fname).1.summary) := by
  simp only [upload_file]
  rw [if_neg hf, if_pos ha]
  cases (init_with_file env Chatbot.new fname).2 with
  | none => rfl
  | some e => rfl

/-- Claim C1, counterexample: when the Weaviate connection raises (the
vector store is unreachable) during an upload that passed input
validation, the exception escapes the upload handler instead of being
converted into a 200 response with a failure summary. -/
theorem c1_counterexample :
    (upload_file env_conn_fail none { file := some "doc.pdf" }).2 =
      UploadOutcome.escaped "weaviate cluster unreachable" := rfl

/-- Claim C1 (amended): for an upload that passes input validation, if the
LLM client, embedding client, Weaviate connection and vector-store wrapper
constructions succeed, then no exception escapes to the HTTP layer: the
handler returns a 200 response, and when document processing (extraction,
chunking, embedding, index construction) fails its summary field is the
fixed failure-indicating string.  Failures of the connection steps
themselves, however, escape the handler (see the counterexample). -/
theorem c1_upload_catches_processing_failures (env : Env) (cb : Option Chatbot)
    (fname : String) (hf : fname ≠ "") (ha : allowed_file fname = true)
    (hl : env.llm_ctor = Except.ok ()) (he : env.embed_ctor = Except.ok ())
    (hc : env.connect_wcs = Except.ok ()) (hv : env.vector_store_ctor = Except.ok ()) :
    ∃ s : String,
      (upload_file env cb { file := some fname }).2 = UploadOutcome.ok (some s) ∧
      (process_document env = none → s = no_summary_message) := by
  rw [upload_valid_eq env cb fname hf ha]
  unfold init_with_file
  rw [hl, he, hc, hv]
  refine ⟨get_initial_summary env
      { filename := some fname, llm := some (), embeddings := some (),
        client := some (), vector_store := some (),
        index := process_document env, summary := none }, rfl, ?_⟩
  intro h
  simp [get_initial_summary, h]

/-- Claim C1 witness: with index construction failing and every earlier
step succeeding, the upload returns 200 with the fixed failure summary. -/
theorem c1_witness :
    (upload_file env_index_fail none { file := some "doc.pdf" }).2 =
      UploadOutcome.ok (some no_summary_message) := by
  obtain ⟨s, h1, h2⟩ := c1_upload_catches_processing_failures env_index_fail none
    "doc.pdf" (by decide) (by decide) rfl rfl rfl rfl
  rw [h1, h2 rfl]

/-- Claim C2: after any upload that passed input validation a session
exists, and a session whose ingestion failed (index is None) answers every
query with the fixed failure message, independently of the environment (so
no retrieval is attempted and no exception can propagate). -/
theorem c2_failed_session_still_answers (env : Env) (cb0 : Option Chatbot)
    (fname : String) (hf : fname ≠ "") (ha : allowed_file fname = true) :
    (∃ c, (upload_file env cb0 { file := some fname }).1 = some c) ∧
      ∀ c, (upload_file env cb0 { file := some fname }).1 = some c →
        c.index = none → ∀ q, ask_query env c q = no_index_message := by
  rw [upload_valid_eq env cb0 fname hf ha]
  refine ⟨⟨_, rfl⟩, ?_⟩
  intro c _ hidx q
  simp [ask_query, hidx]

/-- Claim C2 witness: the session left behind by an upload whose Weaviate
connection failed still answers with the fixed message. -/
theorem c2_witness :
    ask_query env_conn_fail aborted_cb "What is this about?" = no_index_message := by
  exact (c2_failed_session_still_answers env_conn_fail none "doc.pdf"
    (by decide) (by decide)).2 aborted_cb rfl rfl "What is this about?"

/-- Claim C3: on a PDF that opens successfully but raises while reading a
page, the extractor does return the empty string, but the file handle is
still open when it returns (the source only calls `document.close()` after
the loop, which the exception skips), contradicting the release-on-every-
exit-path part of the claim. -/
theorem c3_handle_not_released_on_page_failure :
    extract_text_from_pdf
        { open_result := Except.ok (),
          pages := [Except.ok "text", Except.error "broken page stream"] } =
      ("", true) := rfl

/-- Claim C4: if ingestion fails — whether because document processing
returned None or because initialization aborted with an escaped exception
(e.g. the vector store is unreachable) — the resulting session has a None
index and every subsequent ask returns the fixed failure string, never an
exception. -/
theorem c4_failed_ingestion_state (env : Env) (cb0 : Option Chatbot) (fname : String)
    (hf : fname ≠ "") (ha : allowed_file fname = true)
    (hfail : process_document env = none ∨
      ∃ e, (upload_file env cb0 { file := some fname }).2 = UploadOutcome.escaped e) :
    ∀ c, (upload_file env cb0 { file := some fname }).1 = some c →
      c.index = none ∧ ∀ q, ask_query env c q = no_index_message := by
  intro c hc
  rw [upload_valid_eq env cb0 fname hf ha] at hc hfail
  have hc' : (init_with_file env Chatbot.new fname).1 = c := by
    simpa using hc
  have hidx : c.index = none := by
    rcases init_cases env Chatbot.new fname with ⟨h2, hi, _⟩ | ⟨h2, hi, _⟩
    · rcases hfail with hp | ⟨e, he⟩
      · rw [← hc', hi, hp]
      · rw [h2] at he
        simp at he
    · rw [← hc', hi]
      rfl
  exact ⟨hidx, fun q => by simp [ask_query, hidx]⟩

/-- Claim C4 witness: with the vector store unreachable, the session has a
None index and ask returns the fixed string. -/
theorem c4_witness :
    aborted_cb.index = none ∧
      ask_query env_conn_fail aborted_cb "What is this?" = no_index_message := by
  have h := c4_failed_ingestion_state env_conn_fail none "doc.pdf" (by decide)
    (by decide) (Or.inr ⟨"weaviate cluster unreachable", rfl⟩) aborted_cb rfl
  exact ⟨h.1, h.2 "What is this?"⟩

/-- Claim C5, counterexample: against an existing session, a chat request
whose message field is present but empty is NOT rejected with a 400: the
empty string is forwarded to ask and a 200 response is returned (here the
fixed no-index answer, since the session failed). -/
theorem c5_counterexample :
    chat env_conn_fail (some failed_cb) (some [("message", "")]) =
      ChatOutcome.ok no_index_message := rfl

/-- Claim C5 (amended): against an existing session, a chat request whose
JSON body is null or empty, or lacks the message field, is rejected with a
400 client error; a request whose message field is present — even when the
message is the empty string — is forwarded to ask and its result returned
verbatim with status 200. -/
theorem c5_chat_validation (env : Env) (c : Chatbot) :
    (chat env (some c) none = ChatOutcome.client_error "No message provided") ∧
    (chat env (some c) (some []) = ChatOutcome.client_error "No message provided") ∧
    (∀ fields, lookup_field fields "message" = none →
      chat env (some c) (some fields) = ChatOutcome.client_error "No message provided") ∧
    (∀ fields q, lookup_field fields "message" = some q →
      chat env (some c) (some fields) = ChatOutcome.ok (ask_query env c q)) := by
  refine ⟨rfl, rfl, ?_, ?_⟩
  · intro fields h
    cases fields with
    | nil => rfl
    | cons p rest => simp [chat, h]
  · intro fields q h
    cases fields with
    | nil => exact absurd h (by simp [lookup_field])
    | cons p rest => simp [chat, h]

/-- Claim C5 witness: a request with a non-empty message against an
existing session is forwarded and answered with 200. -/
theorem c5_witness :
    chat env_conn_fail (some failed_cb) (some [("message", "hello")]) =
      ChatOutcome.ok no_index_message := by
  exact (c5_chat_validation env_conn_fail failed_cb).2.2.2
    [("message", "hello")] "hello" rfl

/-- Claim C6: an upload whose file part has a non-empty filename with a
disallowed extension returns the 400 invalid-file-type error, and the
global session is exactly what it was before the request. -/
theorem c6_bad_extension_rejected (env : Env) (cb : Option Chatbot)
    (fname : String) (hf : fname ≠ "") (ha : allowed_file fname = false) :
    upload_file env cb { file := some fname } =
      (cb, UploadOutcome.client_error "Invalid file type") := by
  simp only [upload_file]
  rw [if_neg hf, if_neg (by simp [ha])]

/-- Claim C6 witness: uploading doc.txt over an existing session leaves
the session untouched and returns the 400 error. -/
theorem c6_witness :
    upload_file env_conn_fail (some failed_cb) { file := some "doc.txt" } =
      (some failed_cb, UploadOutcome.client_error "Invalid file type") := by
  exact c6_bad_extension_rejected env_conn_fail (some failed_cb) "doc.txt"
    (by decide) (by decide)

/-- Claim C7: when no session exists, chat returns the 400 upload-first
error whatever the request body holds. -/
theorem c7_chat_without_session (env : Env)
    (data : Option (List (String × String))) :
    chat env none data = ChatOutcome.client_error "Please upload a document first" := rfl

/-- Claim C8: on a session whose index is present, a failure inside query
processing makes ask_query return the string embedding the error text,
never a propagated exception. -/
theorem c8_query_error_embedded (env : Env) (cb : Chatbot) (q e : String)
    (hidx : cb.index = some ()) (herr : env.engine_query q = Except.error e) :
    ask_query env cb q = "Error processing query: " ++ e := by
  simp [ask_query, hidx, herr]

/-- Claim C8 witness: with the query engine raising a rate-limit error,
ask_query returns the embedding message. -/
theorem c8_witness :
    ask_query env_query_fail ok_cb "hi" = "Error processing query: " ++ "rate limit exceeded" := by
  exact c8_query_error_embedded env_query_fail ok_cb "hi" "rate limit exceeded" rfl rfl

/-- Claim C10, counterexample: when the Weaviate connection raises during
the upload, ingestion has failed (the session index is None), yet the
session summary is None rather than the fixed failure string, and status
reports initialized true with a null summary. -/
theorem c10_counterexample :
    (upload_file env_conn_fail none { file := some "doc.pdf" }).1 = some aborted_cb ∧
      aborted_cb.index = none ∧ aborted_cb.summary = none ∧
      status (upload_file env_conn_fail none { file := some "doc.pdf" }).1 =
        (true, none) := ⟨rfl, rfl, rfl, rfl⟩

/-- Claim C10 (amended): after an upload whose client constructions and
vector-store connection succeeded but whose document processing failed
(index is None), the global session exists with its summary set to the
fixed failure string, and status reports initialized true with that
non-null string as the summary. -/
theorem c10_failed_processing_summary (env : Env) (cb0 : Option Chatbot)
    (fname : String) (hf : fname ≠ "") (ha : allowed_file fname = true)
    (hl : env.llm_ctor = Except.ok ()) (he : env.embed_ctor = Except.ok ())
    (hc : env.connect_wcs = Except.ok ()) (hv : env.vector_store_ctor = Except.ok ())
    (hp : process_document env = none) :
    ∃ c, (upload_file env cb0 { file := some fname }).1 = some c ∧
      c.summary = some no_summary_message ∧
      status (upload_file env cb0 { file := some fname }).1 =
        (true, some no_summary_message) := by
  rw [upload_valid_eq env cb0 fname hf ha]
  unfold init_with_file
  rw [hl, he, hc, hv]
  refine ⟨_, rfl, ?_, ?_⟩ <;>
    simp [status, get_initial_summary, hp]

/-- Claim C10 witness: when index construction fails, status reports
initialized true with the fixed failure summary. -/
theorem c10_witness :
    status (upload_file env_index_fail none { file := some "doc.pdf" }).1 =
      (true, some no_summary_message) := by
  obtain ⟨c, h1, h2, h3⟩ := c10_failed_processing_summary env_index_fail none
    "doc.pdf" (by decide) (by decide) rfl rfl rfl rfl rfl
  exact h3

/-! Characterisation of allowed_file. -/

/-- takeWhile swallows a satisfying prefix and stops at the first failing
element. -/
theorem takeWhile_all_cons (p : Char → Bool) (xs : List Char) (y : Char)
    (ys : List Char) (hxs : ∀ x ∈ xs, p x = true) (hy : p y = false) :
    List.takeWhile p (xs ++ y :: ys) = xs := by
  induction xs with
  | nil => simp [List.takeWhile, hy]
  | cons x xs ih =>
    have hx : p x = true := hxs x (by simp)
    simp only [List.cons_append, List.takeWhile, hx]
    rw [List.append_eq, ih (fun z hz => hxs z (by simp [hz]))]

/-- The characters after the last dot of `a ++ . :: b` are exactly `b`
when `b` holds no dot. -/
theorem after_last_dot_append (a b : List Char) (hb : '.' ∉ b) :
    after_last_dot (a ++ '.' :: b) = b := by
  unfold after_last_dot
  rw [List.reverse_append, List.reverse_cons, List.append_assoc,
    List.singleton_append]
  rw [takeWhile_all_cons _ b.reverse '.' a.reverse ?_ (by simp)]
  · exact List.reverse_reverse b
  · intro x hx
    have hxb : x ∈ b := List.mem_reverse.mp hx
    have hxne : x ≠ '.' := by
      intro he
      exact hb (he ▸ hxb)
    simpa using hxne

/-- The head of a non-empty dropWhile result fails the predicate. -/
theorem dropWhile_head_false (p : Char → Bool) :
    ∀ (l : List Char) (y : Char) (ys : List Char),
      List.dropWhile p l = y :: ys → p y = false := by
  intro l
  induction l with
  | nil => intro y ys h; simp [List.dropWhile] at h
  | cons x xs ih =>
    intro y ys h
    by_cases hx : p x = true
    · exact ih y ys (by simpa [List.dropWhile, hx] using h)
    · have hx' : p x = false := by simpa using hx
      rw [List.dropWhile_cons, hx'] at h
      simp only [Bool.false_eq_true, if_false] at h
      cases h
      exact hx'

/-- Every list holding a dot splits as `a ++ . :: after_last_dot l` with no
dot after the split point. -/
theorem exists_last_dot_decomp (l : List Char) (h : '.' ∈ l) :
    ∃ a, l = a ++ '.' :: after_last_dot l ∧ '.' ∉ after_last_dot l := by
  have hsp := List.takeWhile_append_dropWhile (p := fun c => c != '.') (l := l.reverse)
  have hout : '.' ∉ after_last_dot l := by
    intro hmem
    have : '.' ∈ l.reverse.takeWhile (fun c => c != '.') :=
      List.mem_reverse.mp hmem
    have := List.mem_takeWhile_imp this
    simp at this
  cases hd : l.reverse.dropWhile (fun c => c != '.') with
  | nil =>
    exfalso
    rw [hd, List.append_nil] at hsp
    have : '.' ∈ l.reverse.takeWhile (fun c => c != '.') := by
      rw [hsp]
      exact List.mem_reverse.mpr h
    have := List.mem_takeWhile_imp this
    simp at this
  | cons y ys =>
    have hy : (y != '.') = false := dropWhile_head_false _ l.reverse y ys hd
    have hy' : y = '.' := by simpa using hy
    subst hy'
    refine ⟨ys.reverse, ?_, hout⟩
    have hrev : l.reverse = l.reverse.takeWhile (fun c => c != '.') ++ '.' :: ys := by
      rw [← hd]
      exact hsp.symm
    calc l = l.reverse.reverse := (List.reverse_reverse l).symm
    _ = (l.reverse.takeWhile (fun c => c != '.') ++ '.' :: ys).reverse := by rw [← hrev]
    _ = ys.reverse ++ '.' :: after_last_dot l := by
        rw [List.reverse_append, List.reverse_cons, List.append_assoc,
          List.singleton_append]
        rfl

/-- Claim C9: allowed_file accepts a filename exactly when it holds a dot
and the characters after the last dot, lowercased, spell pdf; in
particular a mixed-case .PDF extension is accepted and the bare filename
pdf is rejected. -/
theorem c9_allowed_file_spec :
    (∀ s : String, allowed_file s = true ↔
      ∃ a b : List Char, s.data = a ++ '.' :: b ∧ '.' ∉ b ∧
        b.map Char.toLower = ['p', 'd', 'f']) ∧
    allowed_file "file.PDF" = true ∧ allowed_file "pdf" = false := by
  refine ⟨?_, by decide, by decide⟩
  intro s
  unfold allowed_file allowed_file_chars
  rw [Bool.and_eq_true]
  constructor
  · rintro ⟨h1, h2⟩
    have hm : '.' ∈ s.data := List.elem_iff.mp h1
    obtain ⟨a, hl, hnb⟩ := exists_last_dot_decomp s.data hm
    exact ⟨a, after_last_dot s.data, hl, hnb, eq_of_beq h2⟩
  · rintro ⟨a, b, hl, hnb, hlow⟩
    rw [hl]
    refine ⟨List.elem_iff.mpr (by simp), ?_⟩
    rw [after_last_dot_append a b hnb, hlow]
    exact beq_self_eq_true _

/-- Claim C9 witness: a concrete mixed-case filename is accepted, through
the characterisation. -/
theorem c9_witness : allowed_file "report.PDF" = true := by
  exact (c9_allowed_file_spec.1 "report.PDF").mpr
    ⟨"report".data, "PDF".data, by decide, by decide, by decide⟩

end Api
